import Mathlib

/-!
Shallow embedding of alot/crypto.py: key resolution (get_key), key
validation (validate_key), uid trust checking (check_uid_validity), the
RFC3156 micalg mapping, encryption and detached-signature verification.
The external gpgme engine is modelled as a structure of functions; the
error machinery of alot.errors (not among the sources) is modelled from
the spec.
-/

set_option maxHeartbeats 1000000

/-- Engine-level gpgme error codes distinguished by crypto.py
(gpg.errors.AMBIGUOUS_NAME, gpg.errors.INV_VALUE, gpg.errors.EOF); every
other numeric engine code is collapsed into otherCode. -/
inductive EngineCode where
  | AMBIGUOUS_NAME : EngineCode
  | INV_VALUE : EngineCode
  | EOF : EngineCode
  | otherCode : Nat → EngineCode
deriving DecidableEq

/-- The exception raised by the gpgme engine (gpg.errors.GPGMEError):
the code returned by getcode() and a message. -/
structure GPGMEError where
  code : EngineCode
  message : String
deriving DecidableEq

/-- Modelled from the spec: the kind enumeration alot.errors.GPGCode
(the errors module itself is not among the sources). The fixed kinds of
the spec, with Other carrying the raw engine code that crypto.py passes
through when it wraps an engine failure. -/
inductive GPGCode where
  | AMBIGUOUS_NAME : GPGCode
  | NOT_FOUND : GPGCode
  | KEY_REVOKED : GPGCode
  | KEY_EXPIRED : GPGCode
  | KEY_INVALID : GPGCode
  | KEY_CANNOT_ENCRYPT : GPGCode
  | KEY_CANNOT_SIGN : GPGCode
  | Other : EngineCode → GPGCode
deriving DecidableEq

/-- Modelled from the spec: alot.errors.GPGProblem, the structured
failure type this core produces: a message plus a kind. -/
structure GPGProblem where
  message : String
  code : GPGCode
deriving DecidableEq

/-- A user id on a key (gpg uid object): exactly the fields crypto.py
reads. -/
structure UserID where
  uid : String
  email : String
  revoked : Bool
  invalid : Bool
  validity : Int
deriving DecidableEq

/-- A gpg key object: exactly the fields crypto.py reads. -/
structure Key where
  revoked : Bool
  expired : Bool
  invalid : Bool
  can_encrypt : Bool
  can_sign : Bool
  uids : List UserID
deriving DecidableEq

/-- An opaque engine signature value (gpg.results.Signature), surfaced
to the caller unmodified. -/
structure Signature where
  sigId : String
deriving DecidableEq

/-- The result object of ctx.verify: crypto.py only reads its
signatures field. -/
structure VerifyResult where
  signatures : List Signature
deriving DecidableEq

/-- Outcome of a Python call in crypto.py: a normal return, a raised
GPGProblem, a raised engine GPGMEError escaping unwrapped, or a non-GPG
Python fault such as the IndexError that key.uids[0] raises on a key
without user ids. -/
inductive PyOutcome (α : Type) where
  | ok : α → PyOutcome α
  | gpg : GPGProblem → PyOutcome α
  | engine : GPGMEError → PyOutcome α
  | fault : String → PyOutcome α
deriving DecidableEq

/-- The external gpgme engine as consumed by crypto.py: ctx.get_key,
ctx.keylist, ctx.encrypt (with its always_trust flag), ctx.verify and
gpg.core.hash_algo_name (none for an id the engine does not know). -/
structure Engine where
  getKey : String → Except GPGMEError Key
  keylist : Option String → Bool → List Key
  encryptRaw : String → Option (List Key) → Bool → Except GPGMEError String
  verifyRaw : String → String → Except GPGMEError VerifyResult
  hashAlgoName : Nat → Option String

/-- Python str.lower on the ASCII algorithm names the engine produces:
lowercase every character. -/
def lowerStr (s : String) : String := ⟨s.data.map Char.toLower⟩

/-- crypto.py RFC3156_micalg_from_algo: looks up the engine name of the
hash algorithm and returns pgp- followed by its lowercase form; when the
engine does not know the id, hash_algo_name yields no name and the call
fails (none models the AttributeError raised by lowercasing None). -/
def RFC3156_micalg_from_algo (eng : Engine) (hash_algo : Nat) : Option String :=
  (eng.hashAlgoName hash_algo).map (fun nm => "pgp-" ++ lowerStr nm)

/-- crypto.py validate_key: checks revoked, expired, invalid, then the
encrypt capability, then the sign capability, raising GPGProblem at the
first failing check and returning unit otherwise; every failing branch
reads key.uids[0].uid for its message, which faults on a key with no
user ids. -/
def validate_key (key : Key) (sign : Bool) (encrypt : Bool) : PyOutcome Unit :=
  if key.revoked then
    match key.uids.head? with
    | some u => PyOutcome.gpg ⟨"The key \"" ++ u.uid ++ "\" is revoked.", GPGCode.KEY_REVOKED⟩
    | none => PyOutcome.fault "IndexError"
  else if key.expired then
    match key.uids.head? with
    | some u => PyOutcome.gpg ⟨"The key \"" ++ u.uid ++ "\" is expired.", GPGCode.KEY_EXPIRED⟩
    | none => PyOutcome.fault "IndexError"
  else if key.invalid then
    match key.uids.head? with
    | some u => PyOutcome.gpg ⟨"The key \"" ++ u.uid ++ "\" is invalid.", GPGCode.KEY_INVALID⟩
    | none => PyOutcome.fault "IndexError"
  else if encrypt && !key.can_encrypt then
    match key.uids.head? with
    | some u => PyOutcome.gpg ⟨"The key \"" ++ u.uid ++ "\" can not encrypt.", GPGCode.KEY_CANNOT_ENCRYPT⟩
    | none => PyOutcome.fault "IndexError"
  else if sign && !key.can_sign then
    match key.uids.head? with
    | some u => PyOutcome.gpg ⟨"The key \"" ++ u.uid ++ "\" can not sign.", GPGCode.KEY_CANNOT_SIGN⟩
    | none => PyOutcome.fault "IndexError"
  else PyOutcome.ok ()

/-- crypto.py check_uid_validity: true iff some user id on the key has
exactly this email, is not revoked, not invalid, and has validity at
least 4. -/
def check_uid_validity (key : Key) (email : String) : Bool :=
  key.uids.any (fun u =>
    email == u.email && !u.revoked && !u.invalid && decide (4 ≤ u.validity))

/-- crypto.py list_keys: a pure passthrough to ctx.keylist. -/
def list_keys (eng : Engine) (hint : Option String) (priv : Bool) : List Key :=
  eng.keylist hint priv

/-- The disambiguation loop inside get_key (crypto.py lines 66 to 94):
walk the listed candidates in order, skip a candidate on which
validate_key raises GPGProblem, raise AMBIGUOUS_NAME upon finding a
second surviving candidate, raise NOT_FOUND when no candidate survives,
and otherwise return the single survivor; a non-GPGProblem fault from
validate_key escapes the loop. -/
def find_valid_key : List Key → String → Bool → Bool → Option Key → PyOutcome Key
  | [], keyid, _, _, none =>
      PyOutcome.gpg ⟨"Can not find usable key for \x27" ++ keyid ++ "\x27.",
        GPGCode.NOT_FOUND⟩
  | [], _, _, _, some k => PyOutcome.ok k
  | k :: rest, keyid, encrypt, sign, acc =>
      match validate_key k sign encrypt with
      | PyOutcome.gpg _ => find_valid_key rest keyid encrypt sign acc
      | PyOutcome.fault s => PyOutcome.fault s
      | PyOutcome.engine e => PyOutcome.engine e
      | PyOutcome.ok _ =>
          match acc with
          | some _ =>
              PyOutcome.gpg ⟨"More than one key found matching this filter. Please be more specific (use a key ID like 4AC8EE1D).",
                GPGCode.AMBIGUOUS_NAME⟩
          | none => find_valid_key rest keyid encrypt sign (some k)

/-- The except-branch of get_key (crypto.py lines 59 to 99): an
AMBIGUOUS_NAME engine error triggers disambiguation over
list_keys(hint=keyid); INV_VALUE and EOF engine errors become NOT_FOUND
GPGProblems; any other engine error is re-raised unwrapped. -/
def handle_gpgme_error (eng : Engine) (keyid : String) (encrypt : Bool) (sign : Bool)
    (e : GPGMEError) : PyOutcome Key :=
  if e.code = EngineCode.AMBIGUOUS_NAME then
    find_valid_key (list_keys eng (some keyid) false) keyid encrypt sign none
  else if e.code = EngineCode.INV_VALUE ∨ e.code = EngineCode.EOF then
    PyOutcome.gpg ⟨"Can not find key for \x27" ++ keyid ++ "\x27.",
      GPGCode.NOT_FOUND⟩
  else
    PyOutcome.engine e

/-- crypto.py get_key: look the key up, optionally validate it, recover
from an ambiguous lookup by disambiguation (its result is returned
straight from the handler), classify INV_VALUE and EOF lookups as
NOT_FOUND, and on the unambiguous path reject the key when signed_only
is set and check_uid_validity fails on the lookup string itself. -/
def get_key (eng : Engine) (keyid : String) (validate : Bool) (encrypt : Bool)
    (sign : Bool) (signed_only : Bool) : PyOutcome Key :=
  match eng.getKey keyid with
  | Except.error e => handle_gpgme_error eng keyid encrypt sign e
  | Except.ok key =>
      match (if validate then validate_key key sign encrypt else PyOutcome.ok ()) with
      | PyOutcome.gpg p => PyOutcome.gpg p
      | PyOutcome.fault s => PyOutcome.fault s
      | PyOutcome.engine e => handle_gpgme_error eng keyid encrypt sign e
      | PyOutcome.ok _ =>
          if signed_only && !check_uid_validity key keyid then
            PyOutcome.gpg ⟨"Can not find a trusworthy key for \x27" ++ keyid ++ "\x27.",
              GPGCode.NOT_FOUND⟩
          else PyOutcome.ok key

/-- crypto.py encrypt: calls ctx.encrypt with the given recipients and
always_trust set, returning the engine output; it performs no validation
and installs no exception handler, so an engine failure escapes
unwrapped. -/
def encrypt (eng : Engine) (plaintext_str : String) (keys : Option (List Key)) :
    PyOutcome String :=
  match eng.encryptRaw plaintext_str keys true with
  | Except.ok out => PyOutcome.ok out
  | Except.error e => PyOutcome.engine e

/-- crypto.py verify_detached: returns the engine signatures on success
and wraps an engine failure into a GPGProblem keeping the engine message
and passing the raw engine code through as the kind. -/
def verify_detached (eng : Engine) (message : String) (signature : String) :
    PyOutcome (List Signature) :=
  match eng.verifyRaw message signature with
  | Except.ok vr => PyOutcome.ok vr.signatures
  | Except.error e => PyOutcome.gpg ⟨e.message, GPGCode.Other e.code⟩

/-- The kind of the GPGProblem an outcome raised, when it raised one. -/
def outcomeCode {α : Type} : PyOutcome α → Option GPGCode
  | PyOutcome.gpg p => some p.code
  | _ => none

/-- Whether validate_key accepts the key for the requested actions. -/
def validOk (sign : Bool) (encrypt : Bool) (k : Key) : Bool :=
  match validate_key k sign encrypt with
  | PyOutcome.ok _ => true
  | _ => false

/-- validate_key never raises an engine-level GPGMEError. -/
lemma validate_key_not_engine (k : Key) (s e : Bool) (err : GPGMEError) :
    validate_key k s e ≠ PyOutcome.engine err := by
  unfold validate_key
  repeat' first | split | simp

/-- On a key with at least one user id, validate_key either succeeds or
raises a GPGProblem. -/
lemma validate_key_total (k : Key) (s e : Bool) (h : k.uids ≠ []) :
    validate_key k s e = PyOutcome.ok () ∨ ∃ p, validate_key k s e = PyOutcome.gpg p := by
  obtain ⟨u, rest, hk⟩ := List.exists_cons_of_ne_nil h
  have hh : k.uids.head? = some u := by rw [hk]; rfl
  unfold validate_key
  rw [hh]
  repeat' first | split | simp_all

/-- validOk is true exactly when validate_key succeeds. -/
lemma validOk_iff (s e : Bool) (k : Key) :
    validOk s e k = true ↔ validate_key k s e = PyOutcome.ok () := by
  unfold validOk
  cases hv : validate_key k s e with
  | ok a => cases a; simp
  | gpg p => simp
  | engine err => simp
  | fault m => simp

/-- check_uid_validity is true exactly when some user id on the key has
this exact email, is neither revoked nor invalid, and has validity at
least 4. -/
lemma check_uid_validity_iff (key : Key) (email : String) :
    check_uid_validity key email = true ↔
      ∃ u ∈ key.uids, u.email = email ∧ u.revoked = false ∧ u.invalid = false ∧
        4 ≤ u.validity := by
  unfold check_uid_validity
  rw [List.any_eq_true]
  constructor
  · rintro ⟨u, hu, hcond⟩
    simp only [Bool.and_eq_true, beq_iff_eq, Bool.not_eq_true', decide_eq_true_eq] at hcond
    exact ⟨u, hu, hcond.1.1.1.symm, hcond.1.1.2, hcond.1.2, hcond.2⟩
  · rintro ⟨u, hu, h1, h2, h3, h4⟩
    refine ⟨u, hu, ?_⟩
    simp [h1, h2, h3, h4]

/-- Behaviour of the disambiguation loop, as a function of the sublist
of candidates accepted by validate_key, provided every candidate has at
least one user id (so that validation never faults). -/
lemma find_valid_key_spec (keys : List Key) (keyid : String) (e s : Bool)
    (hf : ∀ k ∈ keys, k.uids ≠ []) (acc : Option Key) :
    find_valid_key keys keyid e s acc =
      match acc, keys.filter (validOk s e) with
      | none, [] =>
          PyOutcome.gpg ⟨"Can not find usable key for \x27" ++ keyid ++ "\x27.",
            GPGCode.NOT_FOUND⟩
      | none, [k] => PyOutcome.ok k
      | none, _ :: _ :: _ =>
          PyOutcome.gpg ⟨"More than one key found matching this filter. Please be more specific (use a key ID like 4AC8EE1D).",
            GPGCode.AMBIGUOUS_NAME⟩
      | some k, [] => PyOutcome.ok k
      | some _, _ :: _ =>
          PyOutcome.gpg ⟨"More than one key found matching this filter. Please be more specific (use a key ID like 4AC8EE1D).",
            GPGCode.AMBIGUOUS_NAME⟩ := by
  induction keys generalizing acc with
  | nil => cases acc <;> simp [find_valid_key]
  | cons k rest ih =>
      have hk : k.uids ≠ [] := hf k (by simp)
      have hrest : ∀ k2 ∈ rest, k2.uids ≠ [] := fun k2 hm => hf k2 (by simp [hm])
      rcases validate_key_total k s e hk with hv | ⟨p, hv⟩
      · have hok : validOk s e k = true := (validOk_iff s e k).mpr hv
        have hfilter : (k :: rest).filter (validOk s e) = k :: rest.filter (validOk s e) :=
          List.filter_cons_of_pos hok
        cases acc with
        | some a =>
            rw [hfilter]
            simp [find_valid_key, hv]
        | none =>
            rw [hfilter]
            have hrec : find_valid_key (k :: rest) keyid e s none =
                find_valid_key rest keyid e s (some k) := by
              simp [find_valid_key, hv]
            rw [hrec, ih hrest (some k)]
            cases hrf : rest.filter (validOk s e) <;> simp
      · have hnok : validOk s e k = false := by
          cases hb : validOk s e k
          · rfl
          · rw [(validOk_iff s e k).mp hb] at hv
            exact absurd hv (by simp)
        have hfilter : (k :: rest).filter (validOk s e) = rest.filter (validOk s e) :=
          List.filter_cons_of_neg (by simp [hnok])
        rw [hfilter]
        have hrec : find_valid_key (k :: rest) keyid e s acc =
            find_valid_key rest keyid e s acc := by
          simp [find_valid_key, hv]
        rw [hrec, ih hrest acc]

/-- Claim C1: when the engine reports the identifier ambiguous, get_key
lists all candidate keys and validates each with the requested
sign/encrypt flags; zero surviving candidates fail with kind NOT_FOUND,
exactly one survivor is returned, and more than one survivor fails with
kind AMBIGUOUS_NAME. -/
theorem C1_ambiguous_disambiguation (eng : Engine) (keyid : String)
    (v enc sgn so : Bool) (err : GPGMEError)
    (heng : eng.getKey keyid = Except.error err)
    (hcode : err.code = EngineCode.AMBIGUOUS_NAME)
    (hf : ∀ k ∈ list_keys eng (some keyid) false, k.uids ≠ []) :
    ((list_keys eng (some keyid) false).filter (validOk sgn enc) = [] →
        outcomeCode (get_key eng keyid v enc sgn so) = some GPGCode.NOT_FOUND) ∧
    (∀ k, (list_keys eng (some keyid) false).filter (validOk sgn enc) = [k] →
        get_key eng keyid v enc sgn so = PyOutcome.ok k) ∧
    (2 ≤ ((list_keys eng (some keyid) false).filter (validOk sgn enc)).length →
        outcomeCode (get_key eng keyid v enc sgn so) = some GPGCode.AMBIGUOUS_NAME) := by
  have hg : get_key eng keyid v enc sgn so =
      find_valid_key (list_keys eng (some keyid) false) keyid enc sgn none := by
    simp [get_key, heng, handle_gpgme_error, hcode]
  rw [find_valid_key_spec (list_keys eng (some keyid) false) keyid enc sgn hf none] at hg
  refine ⟨?_, ?_, ?_⟩
  · intro hnil
    rw [hnil] at hg
    simp [hg, outcomeCode]
  · intro k hone
    rw [hone] at hg
    simpa using hg
  · intro hlen
    cases hflt : (list_keys eng (some keyid) false).filter (validOk sgn enc) with
    | nil => rw [hflt] at hlen; simp at hlen
    | cons a tl =>
        cases tl with
        | nil => rw [hflt] at hlen; simp at hlen
        | cons b tl2 =>
            rw [hflt] at hg
            simp [hg, outcomeCode]

def uidAlice : UserID := ⟨"Alice", "alice@example.com", false, false, 5⟩

def keyExpired : Key := ⟨false, true, false, true, true, [uidAlice]⟩

def keyGood : Key := ⟨false, false, false, true, true, [uidAlice]⟩

def engC1 : Engine :=
  ⟨fun _ => Except.error ⟨EngineCode.AMBIGUOUS_NAME, "ambiguous"⟩,
   fun _ _ => [keyExpired, keyGood],
   fun _ _ _ => Except.ok "",
   fun _ _ => Except.ok ⟨[]⟩,
   fun _ => none⟩

/-- Claim C1 witness: two ambiguous candidates, one expired and one
valid for encryption; get_key returns the valid one. -/
theorem C1_ambiguous_disambiguation_witness :
    get_key engC1 "x" false true false false = PyOutcome.ok keyGood :=
  (C1_ambiguous_disambiguation engC1 "x" false true false false
      ⟨EngineCode.AMBIGUOUS_NAME, "ambiguous"⟩ rfl rfl (by decide)).2.1 keyGood (by decide)

def uidBob : UserID := ⟨"Bob", "bob@example.com", false, false, 0⟩

def keyLoneSurvivor : Key := ⟨false, false, false, true, true, [uidBob]⟩

def engC2 : Engine :=
  ⟨fun _ => Except.error ⟨EngineCode.AMBIGUOUS_NAME, "ambiguous"⟩,
   fun _ _ => [keyLoneSurvivor],
   fun _ _ _ => Except.ok "",
   fun _ _ => Except.ok ⟨[]⟩,
   fun _ => none⟩

/-- Claim C2: on the ambiguous path with exactly one surviving candidate
and signed_only set, get_key returns the survivor without ever running
check_uid_validity on it: here the survivor has no trusted uid for the
identifier, check_uid_validity is false, yet the call succeeds instead
of failing with kind NOT_FOUND as the claim states. -/
theorem C2_trust_check_skipped_on_ambiguous_path :
    get_key engC2 "x" true true false true = PyOutcome.ok keyLoneSurvivor ∧
    check_uid_validity keyLoneSurvivor "x" = false := by
  constructor
  · decide
  · decide

def keyRevokedNoEncrypt : Key :=
  ⟨true, false, false, false, true, [⟨"Carol", "carol@example.com", false, false, 5⟩]⟩

/-- Claim C3: validate_key applies its checks in the fixed order
revoked, expired, invalid, encrypt capability, sign capability, with
the first failing check determining the kind (KEY_REVOKED, KEY_EXPIRED,
KEY_INVALID, KEY_CANNOT_ENCRYPT, KEY_CANNOT_SIGN) and the call
succeeding otherwise; in particular a revoked key that cannot encrypt
reports KEY_REVOKED even when encryption is required. -/
theorem C3_validate_key_order (key : Key) (sgn enc : Bool) (h : key.uids ≠ []) :
    (key.revoked = true →
        outcomeCode (validate_key key sgn enc) = some GPGCode.KEY_REVOKED) ∧
    (key.revoked = false → key.expired = true →
        outcomeCode (validate_key key sgn enc) = some GPGCode.KEY_EXPIRED) ∧
    (key.revoked = false → key.expired = false → key.invalid = true →
        outcomeCode (validate_key key sgn enc) = some GPGCode.KEY_INVALID) ∧
    (key.revoked = false → key.expired = false → key.invalid = false →
        enc = true → key.can_encrypt = false →
        outcomeCode (validate_key key sgn enc) = some GPGCode.KEY_CANNOT_ENCRYPT) ∧
    (key.revoked = false → key.expired = false → key.invalid = false →
        (enc = true → key.can_encrypt = true) → sgn = true → key.can_sign = false →
        outcomeCode (validate_key key sgn enc) = some GPGCode.KEY_CANNOT_SIGN) ∧
    (key.revoked = false → key.expired = false → key.invalid = false →
        (enc = true → key.can_encrypt = true) → (sgn = true → key.can_sign = true) →
        validate_key key sgn enc = PyOutcome.ok ()) := by
  obtain ⟨u, rest, hk⟩ := List.exists_cons_of_ne_nil h
  have hh : key.uids.head? = some u := by rw [hk]; rfl
  refine ⟨?_, ?_, ?_, ?_, ?_, ?_⟩
  · intro h1
    simp [validate_key, h1, hh, outcomeCode]
  · intro h1 h2
    simp [validate_key, h1, h2, hh, outcomeCode]
  · intro h1 h2 h3
    simp [validate_key, h1, h2, h3, hh, outcomeCode]
  · intro h1 h2 h3 h4 h5
    simp [validate_key, h1, h2, h3, h4, h5, hh, outcomeCode]
  · intro h1 h2 h3 h4 h5 h6
    have henc : (enc && !key.can_encrypt) = false := by
      cases enc
      · rfl
      · simp [h4 rfl]
    simp [validate_key, h1, h2, h3, h5, h6, henc, hh, outcomeCode]
  · intro h1 h2 h3 h4 h5
    have henc : (enc && !key.can_encrypt) = false := by
      cases enc
      · rfl
      · simp [h4 rfl]
    have hsgn : (sgn && !key.can_sign) = false := by
      cases sgn
      · rfl
      · simp [h5 rfl]
    simp [validate_key, h1, h2, h3, henc, hsgn, hh]

/-- Claim C3 witness: a revoked key that cannot encrypt fails with
KEY_REVOKED when encryption is required. -/
theorem C3_validate_key_order_witness :
    outcomeCode (validate_key keyRevokedNoEncrypt false true) = some GPGCode.KEY_REVOKED :=
  (C3_validate_key_order keyRevokedNoEncrypt false true (by decide)).1 rfl

/-- Claim C4: check_uid_validity is true exactly when some user id
anywhere in the key's user-id sequence has email exactly equal to the
argument, is not revoked, not invalid, and has validity at least 4. -/
theorem C4_check_uid_validity_exact (key : Key) (email : String) :
    check_uid_validity key email = true ↔
      ∃ u ∈ key.uids, u.email = email ∧ u.revoked = false ∧ u.invalid = false ∧
        4 ≤ u.validity :=
  check_uid_validity_iff key email

def engRawFault : Engine :=
  ⟨fun _ => Except.error ⟨EngineCode.otherCode 11, "General error"⟩,
   fun _ _ => [],
   fun _ _ _ => Except.ok "",
   fun _ _ => Except.ok ⟨[]⟩,
   fun _ => none⟩

/-- Claim C5 counterexample: an engine lookup failure whose code is
neither AMBIGUOUS_NAME nor INV_VALUE nor EOF is re-raised by get_key as
the raw engine error, surfaced to the caller unwrapped rather than
wrapped into a GPGProblem of kind Other. -/
theorem C5_unwrapped_engine_error :
    get_key engRawFault "x" false false false false =
      PyOutcome.engine ⟨EngineCode.otherCode 11, "General error"⟩ := by
  decide

/-- Claim C5 amended: engine lookup errors with code AMBIGUOUS_NAME are
recovered by disambiguation (ending in success, NOT_FOUND or
AMBIGUOUS_NAME), INV_VALUE and EOF are classified as NOT_FOUND, and an
engine error with any other code is re-raised to the caller as the raw
engine fault, unwrapped. -/
theorem C5_engine_error_classification (eng : Engine) (keyid : String)
    (v enc sgn so : Bool) (err : GPGMEError)
    (heng : eng.getKey keyid = Except.error err)
    (hf : ∀ k ∈ list_keys eng (some keyid) false, k.uids ≠ []) :
    (err.code = EngineCode.AMBIGUOUS_NAME →
        (∃ k, get_key eng keyid v enc sgn so = PyOutcome.ok k) ∨
        outcomeCode (get_key eng keyid v enc sgn so) = some GPGCode.NOT_FOUND ∨
        outcomeCode (get_key eng keyid v enc sgn so) = some GPGCode.AMBIGUOUS_NAME) ∧
    ((err.code = EngineCode.INV_VALUE ∨ err.code = EngineCode.EOF) →
        outcomeCode (get_key eng keyid v enc sgn so) = some GPGCode.NOT_FOUND) ∧
    (err.code ≠ EngineCode.AMBIGUOUS_NAME → err.code ≠ EngineCode.INV_VALUE →
        err.code ≠ EngineCode.EOF →
        get_key eng keyid v enc sgn so = PyOutcome.engine err) := by
  have hg : get_key eng keyid v enc sgn so = handle_gpgme_error eng keyid enc sgn err := by
    simp [get_key, heng]
  refine ⟨?_, ?_, ?_⟩
  · intro hamb
    have hg2 : get_key eng keyid v enc sgn so =
        find_valid_key (list_keys eng (some keyid) false) keyid enc sgn none := by
      rw [hg]; simp [handle_gpgme_error, hamb]
    rw [find_valid_key_spec (list_keys eng (some keyid) false) keyid enc sgn hf none] at hg2
    cases hflt : (list_keys eng (some keyid) false).filter (validOk sgn enc) with
    | nil =>
        rw [hflt] at hg2
        right; left; simp [hg2, outcomeCode]
    | cons a tl =>
        cases tl with
        | nil =>
            rw [hflt] at hg2
            left
            exact ⟨a, by simpa using hg2⟩
        | cons b tl2 =>
            rw [hflt] at hg2
            right; right; simp [hg2, outcomeCode]
  · intro hinv
    have hne : err.code ≠ EngineCode.AMBIGUOUS_NAME := by
      rcases hinv with h1 | h1 <;> rw [h1] <;> simp
    rw [hg]
    simp [handle_gpgme_error, hne, hinv, outcomeCode]
  · intro h1 h2 h3
    rw [hg]
    simp [handle_gpgme_error, h1, h2, h3]

def engInvValue : Engine :=
  ⟨fun _ => Except.error ⟨EngineCode.INV_VALUE, "invalid value"⟩,
   fun _ _ => [],
   fun _ _ _ => Except.ok "",
   fun _ _ => Except.ok ⟨[]⟩,
   fun _ => none⟩

/-- Claim C5 amended witness: an INV_VALUE engine lookup error is
classified as a GPGProblem of kind NOT_FOUND. -/
theorem C5_engine_error_classification_witness :
    outcomeCode (get_key engInvValue "y" false false false false) = some GPGCode.NOT_FOUND :=
  (C5_engine_error_classification engInvValue "y" false false false false
      ⟨EngineCode.INV_VALUE, "invalid value"⟩ rfl (by decide)).2.1 (Or.inl rfl)

/-- Claim C6: verify_detached wraps any engine verification failure into
a GPGProblem whose kind passes the engine code through as Other and
whose message preserves the engine message, and on success it returns
the engine signature sequence unmodified. -/
theorem C6_verify_detached_wrap (eng : Engine) (m s : String) :
    (∀ err, eng.verifyRaw m s = Except.error err →
        verify_detached eng m s = PyOutcome.gpg ⟨err.message, GPGCode.Other err.code⟩) ∧
    (∀ vr, eng.verifyRaw m s = Except.ok vr →
        verify_detached eng m s = PyOutcome.ok vr.signatures) := by
  constructor
  · intro err herr
    simp [verify_detached, herr]
  · intro vr hvr
    simp [verify_detached, hvr]

def sigOne : Signature := ⟨"sig-one"⟩

def engVerifies : Engine :=
  ⟨fun _ => Except.error ⟨EngineCode.otherCode 0, ""⟩,
   fun _ _ => [],
   fun _ _ _ => Except.ok "",
   fun _ _ => Except.ok ⟨[sigOne]⟩,
   fun _ => none⟩

/-- Claim C6 witness: a successful engine verification surfaces the
engine signature list unmodified. -/
theorem C6_verify_detached_wrap_witness :
    verify_detached engVerifies "msg" "sig" = PyOutcome.ok [sigOne] :=
  (C6_verify_detached_wrap engVerifies "msg" "sig").2 ⟨[sigOne]⟩ rfl

/-- Claim C7: for a hash-algorithm id the engine knows,
RFC3156_micalg_from_algo yields exactly pgp- followed by the lowercase
engine name, and for an id the engine does not know it fails instead of
producing a malformed value. -/
theorem C7_micalg (eng : Engine) (h : Nat) :
    (∀ nm, eng.hashAlgoName h = some nm →
        RFC3156_micalg_from_algo eng h = some ("pgp-" ++ lowerStr nm)) ∧
    (eng.hashAlgoName h = none → RFC3156_micalg_from_algo eng h = none) := by
  constructor
  · intro nm hnm
    simp [RFC3156_micalg_from_algo, hnm]
  · intro hn
    simp [RFC3156_micalg_from_algo, hn]

def engSha256 : Engine :=
  ⟨fun _ => Except.error ⟨EngineCode.otherCode 0, ""⟩,
   fun _ _ => [],
   fun _ _ _ => Except.ok "",
   fun _ _ => Except.ok ⟨[]⟩,
   fun n => if n = 8 then some "SHA256" else none⟩

/-- Claim C7 witness: an engine naming algorithm 8 SHA256 yields the
RFC3156 string pgp-sha256, and an unknown id fails. -/
theorem C7_micalg_witness :
    RFC3156_micalg_from_algo engSha256 8 = some "pgp-sha256" ∧
    RFC3156_micalg_from_algo engSha256 9 = none := by
  constructor
  · have hstep := (C7_micalg engSha256 8).1 "SHA256" rfl
    rw [hstep]
    decide
  · exact (C7_micalg engSha256 9).2 rfl

/-- Claim C8: encrypt performs no key validation and no trust check of
its own, passes the recipient keys to the engine with always_trust set,
and returns the engine ciphertext; it can never raise a GPGProblem, in
particular none of the key-validation kinds. -/
theorem C8_encrypt_always_trust (eng : Engine) (p : String) (ks : Option (List Key)) :
    (∀ prob, encrypt eng p ks ≠ PyOutcome.gpg prob) ∧
    (∀ out, eng.encryptRaw p ks true = Except.ok out →
        encrypt eng p ks = PyOutcome.ok out) := by
  constructor
  · intro prob
    cases hr : eng.encryptRaw p ks true <;> simp [encrypt, hr]
  · intro out hout
    simp [encrypt, hout]

def keyRecipient : Key := ⟨false, false, false, true, true, []⟩

def engEncrypts : Engine :=
  ⟨fun _ => Except.error ⟨EngineCode.otherCode 0, ""⟩,
   fun _ _ => [],
   fun p _ t => if t then Except.ok ("CT:" ++ p)
                else Except.error ⟨EngineCode.otherCode 1, "untrusted"⟩,
   fun _ _ => Except.ok ⟨[]⟩,
   fun _ => none⟩

/-- Claim C8 witness: encrypt on a concrete engine returns the
ciphertext the engine produces under always_trust, with the given
recipient list. -/
theorem C8_encrypt_always_trust_witness :
    encrypt engEncrypts "hello" (some [keyRecipient]) = PyOutcome.ok "CT:hello" :=
  (C8_encrypt_always_trust engEncrypts "hello" (some [keyRecipient])).2 "CT:hello" rfl

/-- Claim C9: on the unambiguous path with signed_only set, get_key can
only succeed when the lookup string itself is the exact email of a
trusted user id on the resolved key; a lookup string (such as a
fingerprint) matching no uid email fails with kind NOT_FOUND. -/
theorem C9_keyid_as_trusted_email (eng : Engine) (keyid : String) (v enc sgn : Bool)
    (key0 : Key) (heng : eng.getKey keyid = Except.ok key0) :
    (∀ k, get_key eng keyid v enc sgn true = PyOutcome.ok k →
        ∃ u ∈ k.uids, u.email = keyid ∧ u.revoked = false ∧ u.invalid = false ∧
          4 ≤ u.validity) ∧
    ((∀ u ∈ key0.uids, u.email ≠ keyid) →
        (v = true → validate_key key0 sgn enc = PyOutcome.ok ()) →
        outcomeCode (get_key eng keyid v enc sgn true) = some GPGCode.NOT_FOUND) := by
  have hchk : ∀ (hc : check_uid_validity key0 keyid = true),
      ∃ u ∈ key0.uids, u.email = keyid ∧ u.revoked = false ∧ u.invalid = false ∧
        4 ≤ u.validity := fun hc => (check_uid_validity_iff key0 keyid).mp hc
  constructor
  · intro k hk
    cases v with
    | false =>
        simp only [get_key, heng, Bool.false_eq_true, if_false] at hk
        by_cases hc : check_uid_validity key0 keyid
        · simp only [hc, Bool.not_true, Bool.and_false, Bool.false_eq_true, if_false,
            PyOutcome.ok.injEq] at hk
          subst hk
          exact hchk hc
        · simp only [Bool.not_eq_true] at hc
          simp [hc] at hk
    | true =>
        simp only [get_key, heng, if_true] at hk
        cases hv : validate_key key0 sgn enc with
        | ok a =>
            cases a
            rw [hv] at hk
            by_cases hc : check_uid_validity key0 keyid
            · simp only [hc, Bool.not_true, Bool.and_false, Bool.false_eq_true, if_false,
                PyOutcome.ok.injEq] at hk
              subst hk
              exact hchk hc
            · simp only [Bool.not_eq_true] at hc
              simp [hc] at hk
        | gpg p => rw [hv] at hk; simp at hk
        | engine err => exact absurd hv (validate_key_not_engine key0 sgn enc err)
        | fault m => rw [hv] at hk; simp at hk
  · intro hne hval
    have hc : check_uid_validity key0 keyid = false := by
      cases hcv : check_uid_validity key0 keyid
      · rfl
      · obtain ⟨u, hu, he, _⟩ := (check_uid_validity_iff key0 keyid).mp hcv
        exact absurd he (hne u hu)
    cases v with
    | false =>
        simp [get_key, heng, hc, outcomeCode]
    | true =>
        simp [get_key, heng, hval rfl, hc, outcomeCode]

def uidDave : UserID := ⟨"Dave", "dave@example.com", false, false, 5⟩

def keyDave : Key := ⟨false, false, false, true, true, [uidDave]⟩

def engDave : Engine :=
  ⟨fun _ => Except.ok keyDave,
   fun _ _ => [keyDave],
   fun _ _ _ => Except.ok "",
   fun _ _ => Except.ok ⟨[]⟩,
   fun _ => none⟩

/-- Claim C9 witness: looking up a fingerprint-like string with
signed_only set, on a key whose only uid email differs from the lookup
string, fails with kind NOT_FOUND. -/
theorem C9_keyid_as_trusted_email_witness :
    outcomeCode (get_key engDave "4AC8EE1D" false false false true) = some GPGCode.NOT_FOUND :=
  (C9_keyid_as_trusted_email engDave "4AC8EE1D" false false false keyDave rfl).2
    (by decide) (fun h => Bool.noConfusion h)

/-- Claim C10: on a key with an empty user-id sequence, validate_key
faults with an IndexError on every failing branch instead of raising a
structured GPGProblem, while a key passing every check still validates
successfully. -/
theorem C10_empty_uids_fault (key : Key) (sgn enc : Bool) (h : key.uids = []) :
    ((key.revoked || key.expired || key.invalid ||
        (enc && !key.can_encrypt) || (sgn && !key.can_sign)) = true →
        validate_key key sgn enc = PyOutcome.fault "IndexError") ∧
    ((key.revoked || key.expired || key.invalid ||
        (enc && !key.can_encrypt) || (sgn && !key.can_sign)) = false →
        validate_key key sgn enc = PyOutcome.ok ()) := by
  have hh : key.uids.head? = none := by rw [h]; rfl
  constructor
  · intro hcond
    simp only [Bool.or_eq_true] at hcond
    rcases hcond with ((((h1 | h2) | h3) | h4) | h5)
    · simp [validate_key, h1, hh]
    · rcases hr : key.revoked
      · simp [validate_key, hr, h2, hh]
      · simp [validate_key, hr, hh]
    · rcases hr : key.revoked
      · rcases he : key.expired
        · simp [validate_key, hr, he, h3, hh]
        · simp [validate_key, hr, he, hh]
      · simp [validate_key, hr, hh]
    · rcases hr : key.revoked
      · rcases he : key.expired
        · rcases hi : key.invalid
          · simp [validate_key, hr, he, hi, h4, hh]
          · simp [validate_key, hr, he, hi, hh]
        · simp [validate_key, hr, he, hh]
      · simp [validate_key, hr, hh]
    · rcases hr : key.revoked
      · rcases he : key.expired
        · rcases hi : key.invalid
          · rcases hce : (enc && !key.can_encrypt)
            · simp [validate_key, hr, he, hi, hce, h5, hh]
            · simp [validate_key, hr, he, hi, hce, hh]
          · simp [validate_key, hr, he, hi, hh]
        · simp [validate_key, hr, he, hh]
      · simp [validate_key, hr, hh]
  · intro hcond
    simp only [Bool.or_eq_false_iff] at hcond
    obtain ⟨⟨⟨⟨h1, h2⟩, h3⟩, h4⟩, h5⟩ := hcond
    simp [validate_key, h1, h2, h3, h4, h5]

def keyEmptyRevoked : Key := ⟨true, false, false, true, true, []⟩

def keyEmptyGood : Key := ⟨false, false, false, true, true, []⟩

/-- Claim C10 witness: a revoked key with no uids faults with an
IndexError, and a fully valid key with no uids validates successfully. -/
theorem C10_empty_uids_fault_witness :
    validate_key keyEmptyRevoked false true = PyOutcome.fault "IndexError" ∧
    validate_key keyEmptyGood true true = PyOutcome.ok () :=
  ⟨(C10_empty_uids_fault keyEmptyRevoked false true rfl).1 rfl,
   (C10_empty_uids_fault keyEmptyGood true true rfl).2 rfl⟩
